import Mathlib

/-!
Verification development for the daily-checks audit engine
(`audit_checks.py` and `screenshot_validator.py`).

The spreadsheet cells are modelled as a tagged variant: absent (`None`),
a string, or a number.  A numeric cell carries its rational value together
with its Python display string (the image of `str(...)`), since the source
code both compares cell values numerically and concatenates their string
forms into row text.  Machine floats are modelled as exact rationals: none
of the audited comparisons depends on rounding.
-/

namespace DailyChecks

/-- Python whitespace characters removed by `str.strip()` (the ASCII
whitespace plus the no-break space, the ones that can occur in the sheets). -/
def isPySpace (c : Char) : Bool :=
  c = ' ' || c = '\t' || c = '\n' || c = '\r' || c = '\x0b' || c = '\x0c' || c = '\xa0'

/-- Strip leading and trailing Python whitespace from a character list. -/
def stripChars (l : List Char) : List Char :=
  ((l.dropWhile isPySpace).reverse.dropWhile isPySpace).reverse

/-- Python `str.strip()`. -/
def pyStrip (s : String) : String := ⟨stripChars s.data⟩

/-- Python `str.lower()` (ASCII, which covers the audited texts). -/
def pyLower (s : String) : String := ⟨s.data.map Char.toLower⟩

/-- Python `str.upper()` (ASCII). -/
def pyUpper (s : String) : String := ⟨s.data.map Char.toUpper⟩

/-- Remove a leading occurrence of `pat` from `s`, returning the remainder. -/
def peel : List Char → List Char → Option (List Char)
  | [], s => some s
  | _ :: _, [] => none
  | a :: l, b :: s => if a = b then peel l s else none

/-- Substring test on character lists: `needle` occurs somewhere in the list. -/
def subIn (needle : List Char) : List Char → Bool
  | [] => (peel needle []).isSome
  | b :: t => (peel needle (b :: t)).isSome || subIn needle t

/-- Python `needle in hay` for strings. -/
def pyContains (hay needle : String) : Bool := subIn needle.data hay.data

/-- Python `hay.startswith(p)`; used only to state theorems. -/
def startsWithStr (p s : String) : Bool := (peel p.data s.data).isSome

/-- A spreadsheet cell as `openpyxl` yields it: absent, a string, or a
number.  A number carries its value and its Python string form. -/
inductive Cell where
  | none
  | str (s : String)
  | num (v : ℚ) (rep : String)
deriving DecidableEq

/-- Python truthiness of a cell value (`None` and `0` are falsy, a string
is falsy exactly when empty). -/
def Cell.truthy : Cell → Bool
  | Cell.none => false
  | Cell.str s => s != ""
  | Cell.num v _ => v != 0

/-- Python `str(...)` of a cell value. -/
def Cell.pyStr : Cell → String
  | Cell.none => "None"
  | Cell.str s => s
  | Cell.num _ r => r

/-- Python `repr(...)` of a cell value, as used inside list displays. -/
def Cell.pyRepr : Cell → String
  | Cell.none => "None"
  | Cell.str s => "\x27" ++ s ++ "\x27"
  | Cell.num _ r => r

/-- A row is the list of its cell values. -/
abbrev Row := List Cell

/-- `get_cell_value`: the cell at a column, `None` when out of range. -/
def get_cell_value (row : Row) (i : ℕ) : Cell := row.getD i Cell.none

/-- Python `str(list)` of a list of cells. -/
def pyListRepr (l : List Cell) : String :=
  "[" ++ String.intercalate ", " (l.map Cell.pyRepr) ++ "]"

/-- The row text built throughout the source:
`' '.join(str(cell) for cell in row if cell).lower()`. -/
def rowText (row : Row) : String :=
  pyLower (String.intercalate " " ((row.filter Cell.truthy).map Cell.pyStr))

/-- `is_negative_response`: some cell in columns 3 or 4 is truthy and its
stripped, uppercased string form is `"N"`. -/
def is_negative_response (row : Row) : Bool :=
  [3, 4].any fun i =>
    let c := get_cell_value row i
    c.truthy && (pyUpper (pyStrip c.pyStr) == "N")

/-- `has_justification`: the status column (index 6) holds a truthy value
whose stripped string form is nonempty and differs from the two listed
junk strings; returns the flag together with the stripped text. -/
def has_justification (row : Row) : Bool × String :=
  let c := get_cell_value row 6
  if c.truthy then
    let t := pyStrip c.pyStr
    if t != "" && t != "\xa0" && t != " " then (true, t) else (false, "")
  else (false, "")

/-- Numeric value of an ASCII digit. -/
def digitVal (c : Char) : ℕ := c.toNat - 48

/-- ASCII digit test. -/
def isDig (c : Char) : Bool := '0' ≤ c && c ≤ '9'

/-- The natural number denoted by a digit list (most significant first). -/
def digitsVal (l : List Char) : ℕ := l.foldl (fun a c => a * 10 + digitVal c) 0

/-- Python `float(...)` on a decimal literal: optional sign, integer and
fraction digits around an optional point, optional exponent.  The exotic
inputs `float` also accepts (`inf`, `nan`, underscores, non-space blanks)
do not arise from the audited sheets and are rejected here. -/
def parseFloatChars (l : List Char) : Option ℚ :=
  let sgn : ℤ × List Char :=
    match l with
    | '+' :: t => (1, t)
    | '-' :: t => (-1, t)
    | t => (1, t)
  let ip := sgn.2.takeWhile isDig
  let r1 := sgn.2.dropWhile isDig
  let fpr : List Char × List Char :=
    match r1 with
    | '.' :: t => (t.takeWhile isDig, t.dropWhile isDig)
    | t => ([], t)
  if ip.isEmpty && fpr.1.isEmpty then Option.none
  else
    let n : ℤ := sgn.1 * ((digitsVal ip : ℤ) * 10 ^ fpr.1.length + (digitsVal fpr.1 : ℤ))
    let d : ℕ := 10 ^ fpr.1.length
    match fpr.2 with
    | [] => some (mkRat n d)
    | c :: t =>
      if c = 'e' || c = 'E' then
        let eneg : Bool × List Char :=
          match t with
          | '+' :: u => (false, u)
          | '-' :: u => (true, u)
          | u => (false, u)
        let ed := eneg.2.takeWhile isDig
        if ed.isEmpty || !(eneg.2.dropWhile isDig).isEmpty then Option.none
        else if eneg.1 then some (mkRat n (d * 10 ^ digitsVal ed))
        else some (mkRat (n * 10 ^ digitsVal ed) d)
      else Option.none

/-- Python `float(s)` of a cleaned cell string. -/
def pyFloat? (s : String) : Option ℚ := parseFloatChars s.data

/-- The normalisation applied to string cells before parsing:
`val.replace(',', '.').replace(' ', '')`. -/
def cleanNum (s : String) : String :=
  ⟨(s.data.map fun c => if c = ',' then '.' else c).filter (· ≠ ' ')⟩

/-- The numeric reading of one cell inside `extract_numeric_value`:
strings are cleaned and parsed (a failure is reported as `none` and the
caller moves on), numbers are taken as they are, `None` is skipped. -/
def cellNum? : Cell → Option ℚ
  | Cell.none => Option.none
  | Cell.str s => pyFloat? (cleanNum s)
  | Cell.num v _ => some v

/-- `extract_numeric_value`: scan columns 3, 4, 5 in order and return the
first value that reads as a number, together with its column. -/
def extract_numeric_value (row : Row) : Option (ℚ × ℕ) :=
  match cellNum? (get_cell_value row 3) with
  | some v => some (v, 3)
  | Option.none =>
    match cellNum? (get_cell_value row 4) with
    | some v => some (v, 4)
    | Option.none =>
      match cellNum? (get_cell_value row 5) with
      | some v => some (v, 5)
      | Option.none => Option.none

/-- The extracted numeric value alone. -/
def extractVal (row : Row) : Option ℚ := (extract_numeric_value row).map Prod.fst

/-- Python `int(...)` on a float: truncation toward zero. -/
def pyTrunc (q : ℚ) : ℤ := if 0 ≤ q then q.floor else q.ceil

/-- Python `str(...)` of a float: exact for integral values; for other
values that terminate in decimal the expansion is printed; remaining
rationals (which do not arise from the sheets) fall back to a fraction
form.  No audited claim depends on this rendering. -/
def pyFloatStr (q : ℚ) : String :=
  if q.den = 1 then toString q.num ++ ".0"
  else
    match (List.range 30).find? (fun k => (q * (10 : ℚ) ^ (k + 1)).den = 1) with
    | some k =>
      let w := k + 1
      let a := q.num.natAbs * 10 ^ w / q.den
      let frac := toString (a % 10 ^ w)
      (if q < 0 then "-" else "") ++ toString (a / 10 ^ w) ++ "."
        ++ ⟨List.replicate (w - frac.length) '0'⟩ ++ frac
    | Option.none => toString q.num ++ "/" ++ toString q.den

/-!  Row classification.  Every pattern in `CHECK_PATTERNS` is an
alternation of sequences of literals separated by `.*` gaps; the matcher
below implements exactly `re.search` for that shape (a gap crosses any
characters except a newline, case is folded by lowering both sides). -/

/-- The suffixes of `s` reachable from its start by skipping zero or more
non-newline characters — the positions a `.*` gap can hand over to. -/
def nlSuffixes : List Char → List (List Char)
  | [] => [[]]
  | c :: t => (c :: t) :: (if c = '\n' then [] else nlSuffixes t)

/-- Match one alternative — literals separated by `.*` gaps — at the start
of `s` (trailing characters are ignored, as under `re.search`). -/
def seqFrom : List String → List Char → Bool
  | [], _ => true
  | l :: rest, s =>
    match peel l.data s with
    | Option.none => false
    | some s2 => (nlSuffixes s2).any (seqFrom rest)

/-- `re.search(pattern, text)` for an alternation of gap-separated literal
sequences: some alternative matches at some start position. -/
def patSearch (alts : List (List String)) (text : String) : Bool :=
  text.data.tails.any fun suf => alts.any (seqFrom · suf)

/-- `CHECK_PATTERNS`, in source order, with each regex decomposed into its
alternatives and their `.*`-separated literals (lowercased, matching the
case-insensitive search over the lowercased row text). -/
def checkPatterns : List (String × List (List String)) :=
  [("sm51", [["sm51"], ["application server", "running"]]),
   ("sm50", [["sm50"], ["sm66"], ["work process"]]),
   ("smlg", [["smlg"], ["response time"]]),
   ("sm21", [["sm21"], ["system log"]]),
   ("sm37", [["sm37"], ["cancelled", "job"], ["failed", "job"]]),
   ("sm12", [["sm12"], ["old lock"]]),
   ("st22", [["st22"], ["abap", "dump"]]),
   ("dbacockpit", [["dbacockpit"], ["database", "performance"]]),
   ("sm13", [["sm13"], ["update", "monitoring"], ["failed update"]]),
   ("st02", [["st02"], ["buffer"]]),
   ("st03n", [["st03n"], ["workload", "monitoring"]]),
   ("spad", [["spad"], ["spool"]]),
   ("sm58", [["sm58"], ["trfc"]]),
   ("sost", [["sost"], ["failed", "email"]]),
   ("bop_cmc", [["cmc"], ["server", "status"]]),
   ("nwa", [["nwa"], ["system overview"]])]

/-- First pattern of the table matching the text, in table order. -/
def firstPat : List (String × List (List String)) → String → Option String
  | [], _ => Option.none
  | (k, p) :: rest, t => if patSearch p t then some k else firstPat rest t

/-- `identify_check_type`: the first check type whose pattern matches the
concatenated lowercased row text, or none. -/
def identify_check_type (row : Row) : Option String :=
  firstPat checkPatterns (rowText row)

/-!  Configuration. -/

/-- One entry of the `thresholds` mapping: optional `max` and `warning`
numeric fields (integers in the audited configurations). -/
structure ThresholdEntry where
  max? : Option ℤ
  warning? : Option ℤ
deriving DecidableEq

/-- A parsed customer configuration: it may or may not carry a
`thresholds` mapping (an association list keyed by metric name). -/
structure PyConfig where
  thresholds? : Option (List (String × ThresholdEntry))
deriving DecidableEq

/-- Dictionary lookup in the thresholds mapping. -/
def thLookup (al : List (String × ThresholdEntry)) (k : String) : Option ThresholdEntry :=
  (al.find? (fun p => p.1 == k)).map Prod.snd

/-- `get_threshold`: two-level optional lookup of `max`, falling back to
the supplied default at every level. -/
def get_threshold (config : Option PyConfig) (metric : String) (dflt : ℤ) : ℤ :=
  match config with
  | Option.none => dflt
  | some c =>
    match c.thresholds? with
    | Option.none => dflt
    | some al =>
      match thLookup al metric with
      | Option.none => dflt
      | some e => e.max?.getD dflt

/-!  Findings and the per-row rule engine. -/

/-- Severity of a finding; the engine only ever creates these two. -/
inductive Severity where
  | critical
  | warning
deriving DecidableEq

/-- `AuditIssue`: one structured finding. -/
structure AuditIssue where
  sheet : String
  row : ℕ
  check_type : String
  severity : Severity
  message : String
  context : String
deriving DecidableEq

/-- The context snippet `str(row_list[0:4]) if row_list else ""` attached
to justification findings. -/
def ctxJust (row : Row) : String :=
  if row.isEmpty then "" else pyListRepr (row.take 4)

/-- Pass A, the justification rule: fires only on rows flagged as a
negative response; absent justification is critical, a short one warns. -/
def passAIssues (sheetName : String) (rowIdx : ℕ) (cur : Option String) (row : Row) :
    List AuditIssue :=
  if is_negative_response row then
    let hj := has_justification row
    if !hj.1 then
      [⟨sheetName, rowIdx, cur.getD "unknown", Severity.critical,
        "Negative (N) response without justification", ctxJust row⟩]
    else if hj.2.length < 10 then
      [⟨sheetName, rowIdx, cur.getD "unknown", Severity.warning,
        "Negative response has brief justification: \x22" ++ hj.2 ++ "\x22", ctxJust row⟩]
    else []
  else []

/-- Pass B, the numeric threshold rules, in source order; nothing fires
when no numeric value extracts. -/
def passBIssues (config : Option PyConfig) (sheetName : String) (rowIdx : ℕ) (row : Row) :
    List AuditIssue :=
  let text := rowText row
  match extract_numeric_value row with
  | Option.none => []
  | some vc =>
    let v := vc.1
    let respThr := get_threshold config "response_time_smlg" 1000
    let todayThr := get_threshold config "dumps_today" 50
    let yesterdayThr := get_threshold config "dumps_yesterday" 100
    (if pyContains text "resp time" && decide ((respThr : ℚ) < v) then
      [⟨sheetName, rowIdx, "smlg", Severity.warning,
        "Response time " ++ pyFloatStr v ++ "ms exceeds " ++ toString respThr ++ "ms threshold",
        if row.isEmpty then "" else pyListRepr ((row.drop 1).take 3)⟩]
     else [])
    ++ (if pyContains text "dump" && pyContains text "today" && decide ((todayThr : ℚ) < v) then
      [⟨sheetName, rowIdx, "st22", Severity.warning,
        "High dump count today: " ++ toString (pyTrunc v) ++ " (threshold: "
          ++ toString todayThr ++ ")", ""⟩]
     else [])
    ++ (if pyContains text "dump" && pyContains text "yesterday"
          && decide ((yesterdayThr : ℚ) < v) then
      [⟨sheetName, rowIdx, "st22", Severity.warning,
        "High dump count yesterday: " ++ toString (pyTrunc v) ++ " (threshold: "
          ++ toString yesterdayThr ++ ")", ""⟩]
     else [])
    ++ (if pyContains text "failed update" && decide (0 < v) then
      [⟨sheetName, rowIdx, "sm13", Severity.critical,
        "Failed updates detected: " ++ toString (pyTrunc v), ""⟩]
     else [])
    ++ (if (pyContains text "cpicerr" || pyContains text "sysfail") && decide (0 < v) then
      [⟨sheetName, rowIdx, "sm58", Severity.critical,
        "tRFC errors detected: " ++ toString (pyTrunc v), ""⟩]
     else [])
    ++ (if pyContains text "old lock" || pyContains text "number of old locks" then
      if decide (0 < v) then
        if !(has_justification row).1 then
          [⟨sheetName, rowIdx, "sm12", Severity.warning,
            "Old locks present (" ++ toString (pyTrunc v) ++ ") without explanation", ""⟩]
        else []
      else []
     else [])

/-- One iteration of the `audit_sheet` row loop: skip rows with no truthy
cell, update the sticky check type, then run both passes. -/
def auditRowStep (config : Option PyConfig) (sheetName : String) (cur : Option String)
    (rowIdx : ℕ) (row : Row) : Option String × List AuditIssue :=
  if !(row.any Cell.truthy) then (cur, [])
  else
    let cur2 :=
      match identify_check_type row with
      | some k => some k
      | Option.none => cur
    (cur2, passAIssues sheetName rowIdx cur2 row ++ passBIssues config sheetName rowIdx row)

/-- The `audit_sheet` loop over the data rows, threading the sticky check
type and the running row index. -/
def auditRowsFrom (config : Option PyConfig) (sheetName : String) :
    Option String → ℕ → List Row → List AuditIssue
  | _, _, [] => []
  | cur, idx, r :: rest =>
    let st := auditRowStep config sheetName cur idx r
    st.2 ++ auditRowsFrom config sheetName st.1 (idx + 1) rest

/-- `audit_sheet`: audit the data rows of one sheet (they start at row 6
in the 1-indexed convention of the source). -/
def audit_sheet (config : Option PyConfig) (sheetName : String) (rows : List Row) :
    List AuditIssue :=
  auditRowsFrom config sheetName Option.none 6 rows

/-!  Screenshot cross-validation (`screenshot_validator.py`). -/

/-- The structured fields extracted from one screenshot.  The numeric
fields are optional: absent means not visible in the image. -/
structure Extracted where
  failed_data_backup : Option ℤ
  failed_log_backup : Option ℤ
  failed_jobs : Option ℤ
  successful_backups : Option ℤ
  total_entries : Option ℤ
  has_errors : Bool
  error_indicators : List String
deriving DecidableEq

/-- `ScreenshotAnalysis`: the result of analysing one image. -/
structure Analysis where
  image_name : String
  sheet_name : String
  analysis_type : String
  extracted_data : Extracted
  raw_response : String
deriving DecidableEq

/-- The duck-typed values carried by a `ValidationIssue` field. -/
inductive PyVal where
  | vnone
  | vint (n : ℤ)
  | vstrs (l : List String)
deriving DecidableEq

/-- `ValidationIssue`: a discrepancy between a screenshot and the sheet. -/
structure ValidationIssue where
  sheet : String
  image_name : String
  severity : Severity
  message : String
  screenshot_value : PyVal
  reported_value : PyVal
deriving DecidableEq

/-- The sheet-side reported values: the three optional entries the
extraction loop can create. -/
structure Reported where
  failed_data_backup : Option ℤ
  failed_log_backup : Option ℤ
  failed_jobs : Option ℤ
deriving DecidableEq

/-- First numeric cell of a row, scanning from column 0
(`for cell in row: if isinstance(cell, (int, float))`). -/
def firstNumCell : List Cell → Option ℚ
  | [] => Option.none
  | Cell.num v _ :: _ => some v
  | _ :: t => firstNumCell t

/-- The job-failure row trigger of `extract_reported_values`. -/
def jobsRowHit (row : Row) : Bool :=
  (pyContains (rowText row) "failed" && pyContains (rowText row) "job")
    || pyContains (rowText row) "number of failed jobs"

/-- One iteration of the `extract_reported_values` row loop over the
accumulator (last seen data-backup count, last seen log-backup count,
running failed-jobs total). -/
def repStep (acc : Option ℤ × Option ℤ × ℤ) (row : Row) : Option ℤ × Option ℤ × ℤ :=
  let text := rowText row
  let n? := firstNumCell row
  let a1 :=
    if pyContains text "failed data backup" then
      match n? with
      | some v => some (pyTrunc v)
      | Option.none => acc.1
    else acc.1
  let a2 :=
    if pyContains text "failed log backup" then
      match n? with
      | some v => some (pyTrunc v)
      | Option.none => acc.2.1
    else acc.2.1
  let a3 :=
    if jobsRowHit row then
      acc.2.2 + (match n? with | some v => pyTrunc v | Option.none => 0)
    else acc.2.2
  (a1, a2, a3)

/-- `extract_reported_values`: scan every row of the sheet; the
failed-jobs entry is recorded only when the accumulated total is
strictly positive. -/
def extract_reported_values (rows : List Row) : Reported :=
  let st := rows.foldl repStep (Option.none, Option.none, 0)
  ⟨st.1, st.2.1, if 0 < st.2.2 then some st.2.2 else Option.none⟩

/-- The failed-data-backup comparison block of `validate_against_reports`. -/
def fdbBlock (a : Analysis) (rep : Reported) : List ValidationIssue :=
  match a.extracted_data.failed_data_backup with
  | Option.none => []
  | some sv =>
    match rep.failed_data_backup with
    | Option.none => []
    | some rv =>
      if sv ≠ rv then
        [⟨a.sheet_name, a.image_name, Severity.critical,
          "Screenshot shows " ++ toString sv ++ " failed data backups but cell reports "
            ++ toString rv, PyVal.vint sv, PyVal.vint rv⟩]
      else []

/-- The failed-log-backup comparison block. -/
def flbBlock (a : Analysis) (rep : Reported) : List ValidationIssue :=
  match a.extracted_data.failed_log_backup with
  | Option.none => []
  | some sv =>
    match rep.failed_log_backup with
    | Option.none => []
    | some rv =>
      if sv ≠ rv then
        [⟨a.sheet_name, a.image_name, Severity.critical,
          "Screenshot shows " ++ toString sv ++ " failed log backups but cell reports "
            ++ toString rv, PyVal.vint sv, PyVal.vint rv⟩]
      else []

/-- The failed-jobs comparison block. -/
def fjBlock (a : Analysis) (rep : Reported) : List ValidationIssue :=
  match a.extracted_data.failed_jobs with
  | Option.none => []
  | some sv =>
    match rep.failed_jobs with
    | Option.none => []
    | some rv =>
      if sv ≠ rv then
        [⟨a.sheet_name, a.image_name, Severity.critical,
          "Screenshot shows " ++ toString sv ++ " failed jobs but cell reports "
            ++ toString rv, PyVal.vint sv, PyVal.vint rv⟩]
      else []

/-- Python `str(...)` of a list of strings. -/
def pyStrListRepr (l : List String) : String :=
  "[" ++ String.intercalate ", " (l.map fun s => "\x27" ++ s ++ "\x27") ++ "]"

/-- The error-indicator block: warn when the screenshot shows errors but
the sum of the three reported failure metrics (absent entries read as 0)
is exactly zero. -/
def errBlock (a : Analysis) (rep : Reported) : List ValidationIssue :=
  let rf := rep.failed_data_backup.getD 0 + rep.failed_log_backup.getD 0
    + rep.failed_jobs.getD 0
  if a.extracted_data.has_errors && rf == 0 then
    [⟨a.sheet_name, a.image_name, Severity.warning,
      "Screenshot shows error indicators but no failures reported: "
        ++ pyStrListRepr a.extracted_data.error_indicators,
      PyVal.vstrs a.extracted_data.error_indicators, PyVal.vint 0⟩]
  else []

/-- The body of the `validate_against_reports` loop for one analysis:
analyses classified `"unknown"` are skipped, the four blocks run in
source order. -/
def validateOne (a : Analysis) (rep : Reported) : List ValidationIssue :=
  if a.analysis_type == "unknown" then []
  else fdbBlock a rep ++ flbBlock a rep ++ fjBlock a rep ++ errBlock a rep

/-- `validate_against_reports`: every analysis is reconciled against the
reported values computed from the rows of its own sheet. -/
def validate_against_reports (analyses : List Analysis) (sheetRows : String → List Row) :
    List ValidationIssue :=
  analyses.flatMap fun a => validateOne a (extract_reported_values (sheetRows a.sheet_name))

/-!  The per-sheet part of `generate_report`. -/

/-- The bullet line printed for one finding. -/
def renderIssueLine (i : AuditIssue) : String :=
  "- **Row " ++ toString i.row ++ "** [" ++ i.check_type ++ "]: " ++ i.message

/-- The indented context line printed below a critical finding, with the
80-character truncation of the source. -/
def renderCtxLine (i : AuditIssue) : String :=
  if 80 < i.context.length then
    "  - Context: `" ++ ⟨i.context.data.take 80⟩ ++ "...`"
  else
    "  - Context: `" ++ i.context ++ "`"

/-- The per-system findings section that `generate_report` emits for one
sheet: status marker, counts, critical findings (each with optional
context line) first, then warnings; a clean sheet is listed with an
explicit passed marker. -/
def sheetSection (issues : List AuditIssue) (sheetName : String) : List String :=
  let si := issues.filter fun i => i.sheet == sheetName
  if si.isEmpty then
    ["### [OK] " ++ sheetName ++ "\n", "All checks passed validation.\n"]
  else
    let crit := si.filter fun i => i.severity == Severity.critical
    let warn := si.filter fun i => i.severity == Severity.warning
    let status := if !crit.isEmpty then "[CRITICAL]" else "[WARNING]"
    ["### " ++ status ++ " " ++ sheetName ++ "\n",
     "**Issues Found**: " ++ toString si.length ++ " (" ++ toString crit.length
       ++ " critical, " ++ toString warn.length ++ " warnings)\n"]
    ++ (if !crit.isEmpty then
          ["#### Critical Issues\n"]
            ++ (crit.flatMap fun i =>
                 renderIssueLine i :: (if i.context != "" then [renderCtxLine i] else []))
            ++ [""]
        else [])
    ++ (if !warn.isEmpty then
          ["#### Warnings\n"] ++ warn.map renderIssueLine ++ [""]
        else [])

/-- The whole per-system findings part: one section per sheet name, in
workbook order. -/
def perSystemFindings (sheetNames : List String) (issues : List AuditIssue) : List String :=
  sheetNames.flatMap (sheetSection issues)

/-!  Helper lemmas. -/

/-- The head surviving `dropWhile` fails the predicate. -/
lemma dropWhile_head (p : Char → Bool) :
    ∀ (l : List Char) (c : Char) (t : List Char), l.dropWhile p = c :: t → p c = false
  | [], c, t, h => by simp [List.dropWhile] at h
  | a :: l, c, t, h => by
    by_cases ha : p a = true
    · rw [List.dropWhile_cons_of_pos ha] at h
      exact dropWhile_head p l c t h
    · rw [List.dropWhile_cons_of_neg ha] at h
      cases h
      simpa using ha

/-- The head of a stripped character list is not whitespace. -/
lemma stripChars_head (l : List Char) (c : Char) (t : List Char)
    (h : stripChars l = c :: t) : isPySpace c = false := by
  unfold stripChars at h
  have hsplit :
      ((l.dropWhile isPySpace).reverse.takeWhile isPySpace)
        ++ ((l.dropWhile isPySpace).reverse.dropWhile isPySpace)
        = (l.dropWhile isPySpace).reverse :=
    List.takeWhile_append_dropWhile isPySpace (l.dropWhile isPySpace).reverse
  have hm : l.dropWhile isPySpace
      = ((l.dropWhile isPySpace).reverse.dropWhile isPySpace).reverse
        ++ ((l.dropWhile isPySpace).reverse.takeWhile isPySpace).reverse := by
    conv_lhs => rw [← List.reverse_reverse (l.dropWhile isPySpace), ← hsplit]
    rw [List.reverse_append]
  rw [h, List.cons_append] at hm
  exact dropWhile_head isPySpace l c _ hm

/-- A nonempty stripped string is never one of the two junk strings the
source filters out (their single character is whitespace). -/
lemma pyStrip_ne_junk (s : String) (h : pyStrip s ≠ "") :
    pyStrip s ≠ "\xa0" ∧ pyStrip s ≠ " " := by
  cases hd : stripChars s.data with
  | nil =>
    exact absurd (show pyStrip s = "" by simp [pyStrip, hd]) h
  | cons c t =>
    have hc : isPySpace c = false := stripChars_head _ _ _ hd
    constructor
    · intro he
      have hdata : c :: t = ['\xa0'] := by
        have := congrArg String.data he
        simpa [pyStrip, hd] using this
      cases hdata
      simp [isPySpace] at hc
    · intro he
      have hdata : c :: t = [' '] := by
        have := congrArg String.data he
        simpa [pyStrip, hd] using this
      cases hdata
      simp [isPySpace] at hc

/-- `pyStrip` of the empty string. -/
lemma pyStrip_empty : pyStrip "" = "" := rfl

/-!  C10. -/

/-- C10: a row in which every cell is Python-falsy (absent, empty string,
or the number 0) is skipped whole by the per-row audit: no finding is
emitted and the sticky current category is unchanged. -/
theorem C10_falsy_row_skipped (config : Option PyConfig) (sheetName : String)
    (cur : Option String) (rowIdx : ℕ) (row : Row)
    (h : row.all (fun c => !c.truthy) = true) :
    auditRowStep config sheetName cur rowIdx row = (cur, []) := by
  have hany : row.any Cell.truthy = false := by
    rw [List.any_eq_false]
    intro c hc
    have := List.all_eq_true.mp h c hc
    simpa using this
  simp [auditRowStep, hany]

/-- C10 witness: a row whose only content is numeric zeros is treated as
empty. -/
theorem C10_falsy_row_skipped_witness :
    auditRowStep Option.none "HDB" (some "sm37") 9
        [Cell.num 0 "0", Cell.str "", Cell.none, Cell.num 0 "0.0"]
      = (some "sm37", []) :=
  C10_falsy_row_skipped Option.none "HDB" (some "sm37") 9
    [Cell.num 0 "0", Cell.str "", Cell.none, Cell.num 0 "0.0"] (by decide)

/-!  C1.  The claim names the configuration metric key
`dump_count_today` (the key of the unused `VALIDATION_RULES` table), but
the threshold lookup in `audit_sheet` reads the key `dumps_today`; an
override stored under `dump_count_today` is therefore ignored and the row
with value 11 stays below the default threshold 50, emitting nothing. -/

/-- C1 counterexample: under a configuration with
`thresholds.dump_count_today.max = 10`, a row containing "dump" and
"today" with extracted value 11 yields no finding at all — in particular
no warning citing threshold 10. -/
theorem C1_counterexample :
    let cfg : Option PyConfig := some ⟨some [("dump_count_today", ⟨some 10, Option.none⟩)]⟩
    let row : Row := [Cell.str "No of dumps today", Cell.none, Cell.none, Cell.num 11 "11"]
    pyContains (rowText row) "dump" = true ∧ pyContains (rowText row) "today" = true
      ∧ extractVal row = some 11
      ∧ passBIssues cfg "HDB" 6 row = [] := by
  decide

/-- C1 amended: the metric key the code reads is `dumps_today`.  When the
resolved `dumps_today` threshold is 10, every row containing "dump" and
"today" with extracted value 11 yields the warning citing threshold 10,
not the default 50. -/
theorem C1_dump_today_override (config : Option PyConfig) (sheetName : String)
    (rowIdx : ℕ) (row : Row)
    (hcfg : get_threshold config "dumps_today" 50 = 10)
    (hdump : pyContains (rowText row) "dump" = true)
    (htoday : pyContains (rowText row) "today" = true)
    (hval : extractVal row = some 11) :
    AuditIssue.mk sheetName rowIdx "st22" Severity.warning
        "High dump count today: 11 (threshold: 10)" ""
      ∈ passBIssues config sheetName rowIdx row := by
  obtain ⟨vc, he, hv⟩ : ∃ vc, extract_numeric_value row = some vc ∧ vc.1 = 11 := by
    unfold extractVal at hval
    cases he : extract_numeric_value row with
    | none => rw [he] at hval; simp at hval
    | some vc => rw [he] at hval; exact ⟨vc, rfl, by simpa using hval⟩
  unfold passBIssues
  rw [he]
  simp only [hv, hcfg, hdump, htoday]
  have h11 : ((10 : ℤ) : ℚ) < 11 := by norm_num
  have htr : toString (pyTrunc 11) = "11" := by decide
  simp only [decide_eq_true h11, Bool.and_true, Bool.and_self, if_true, htr]
  have hmsg : "High dump count today: " ++ "11" ++ " (threshold: " ++ toString (10 : ℤ) ++ ")"
      = "High dump count today: 11 (threshold: 10)" := by decide
  refine List.mem_append_left _ (List.mem_append_left _ (List.mem_append_left _
    (List.mem_append_left _ (List.mem_append_right _ ?_))))
  rw [hmsg]
  exact List.mem_singleton.mpr rfl

/-- C1 witness: a concrete configuration keyed `dumps_today` with max 10
and a concrete dumps-today row with value 11. -/
theorem C1_dump_today_override_witness :
    AuditIssue.mk "HDB" 6 "st22" Severity.warning
        "High dump count today: 11 (threshold: 10)" ""
      ∈ passBIssues (some ⟨some [("dumps_today", ⟨some 10, Option.none⟩)]⟩) "HDB" 6
        [Cell.str "No of dumps today", Cell.none, Cell.none, Cell.num 11 "11"] :=
  C1_dump_today_override (some ⟨some [("dumps_today", ⟨some 10, Option.none⟩)]⟩) "HDB" 6
    [Cell.str "No of dumps today", Cell.none, Cell.none, Cell.num 11 "11"]
    (by decide) (by decide) (by decide) (by decide)

/-!  C2.  The claim conditions the dispatch on whether the status column
"holds a non-blank, non-whitespace-only value".  The code instead tests
Python truthiness first: a status cell holding the number 0 — a value
that is neither blank nor whitespace — is treated like an absent one and
yields the critical finding, not the brief-justification warning. -/

/-- The claim condition, read from the spec words: the status column
(index 6) holds some non-blank, non-whitespace-only value.  A numeric
cell displays as its nonempty digit string, so any number present counts
as such a value. -/
def specNonBlankStatus (row : Row) : Bool :=
  match get_cell_value row 6 with
  | Cell.none => false
  | Cell.str s => pyStrip s != ""
  | Cell.num _ _ => true

/-- C2 counterexample: a negative-response row whose status cell holds the
number 0.  The status holds a non-blank value, so the claim demands the
brief-justification warning; the code emits the critical
missing-justification finding and no warning. -/
theorem C2_counterexample :
    let row : Row := [Cell.str "check", Cell.none, Cell.none, Cell.str "N", Cell.none,
      Cell.none, Cell.num 0 "0"]
    is_negative_response row = true ∧ specNonBlankStatus row = true
      ∧ ((passAIssues "HDB" 7 Option.none row).filter
          fun i => i.severity == Severity.warning) = []
      ∧ passAIssues "HDB" 7 Option.none row
        = [⟨"HDB", 7, "unknown", Severity.critical,
            "Negative (N) response without justification",
            "[\x27check\x27, None, None, \x27N\x27]"⟩] := by
  decide

/-- C2 amended: on a negative-response row, the justification pass
dispatches on the status cell as follows — an absent cell, a
whitespace-only string, or the number 0 (Python-falsy) yields exactly one
critical finding; otherwise the stripped display text is the
justification, yielding exactly one warning quoting it when shorter than
10 characters and no finding otherwise. -/
theorem C2_justification_dispatch (sheetName : String) (rowIdx : ℕ) (cur : Option String)
    (row : Row) (hneg : is_negative_response row = true) :
    passAIssues sheetName rowIdx cur row
      = match get_cell_value row 6 with
        | Cell.none =>
          [⟨sheetName, rowIdx, cur.getD "unknown", Severity.critical,
            "Negative (N) response without justification", ctxJust row⟩]
        | Cell.str s =>
          if pyStrip s = "" then
            [⟨sheetName, rowIdx, cur.getD "unknown", Severity.critical,
              "Negative (N) response without justification", ctxJust row⟩]
          else if (pyStrip s).length < 10 then
            [⟨sheetName, rowIdx, cur.getD "unknown", Severity.warning,
              "Negative response has brief justification: \x22" ++ pyStrip s ++ "\x22",
              ctxJust row⟩]
          else []
        | Cell.num v r =>
          if v = 0 then
            [⟨sheetName, rowIdx, cur.getD "unknown", Severity.critical,
              "Negative (N) response without justification", ctxJust row⟩]
          else if pyStrip r = "" then
            [⟨sheetName, rowIdx, cur.getD "unknown", Severity.critical,
              "Negative (N) response without justification", ctxJust row⟩]
          else if (pyStrip r).length < 10 then
            [⟨sheetName, rowIdx, cur.getD "unknown", Severity.warning,
              "Negative response has brief justification: \x22" ++ pyStrip r ++ "\x22",
              ctxJust row⟩]
          else [] := by
  unfold passAIssues has_justification
  rw [hneg]
  cases hc : get_cell_value row 6 with
  | none => simp [Cell.truthy]
  | str s =>
    by_cases hs : s = ""
    · subst hs
      simp [Cell.truthy, Cell.pyStr, pyStrip_empty]
    · by_cases ht : pyStrip s = ""
      · simp [Cell.truthy, Cell.pyStr, hs, ht]
      · obtain ⟨h1, h2⟩ := pyStrip_ne_junk s ht
        simp [Cell.truthy, Cell.pyStr, hs, ht, h1, h2]
  | num v r =>
    by_cases hv : v = 0
    · subst hv
      simp [Cell.truthy]
    · by_cases ht : pyStrip r = ""
      · simp [Cell.truthy, Cell.pyStr, hv, ht]
      · obtain ⟨h1, h2⟩ := pyStrip_ne_junk r ht
        simp [Cell.truthy, Cell.pyStr, hv, ht, h1, h2]

/-- C2 witness: a negative-response row with a 9-character justification
gets exactly the brief-justification warning quoting the stripped text. -/
theorem C2_justification_dispatch_witness :
    passAIssues "HDB" 8 (some "sm37")
        [Cell.str "job check", Cell.none, Cell.none, Cell.str "n", Cell.none, Cell.none,
         Cell.str " INC-1234 "]
      = [⟨"HDB", 8, "sm37", Severity.warning,
          "Negative response has brief justification: \x22INC-1234\x22",
          "[\x27job check\x27, None, None, \x27n\x27]"⟩] :=
  (C2_justification_dispatch "HDB" 8 (some "sm37")
    [Cell.str "job check", Cell.none, Cell.none, Cell.str "n", Cell.none, Cell.none,
     Cell.str " INC-1234 "] (by decide)).trans (by decide)

/-!  C7.  The claim states the old-lock warning fires if and only if the
status column holds no non-blank justification text.  The code suppresses
on Python truthiness: a status cell holding the number 0 is a non-blank
value, yet the warning still fires. -/

/-- C7 counterexample: an old-lock row with positive count whose status
cell holds the number 0.  The status holds a non-blank value, so the
claim demands suppression; the code emits the old-lock warning. -/
theorem C7_counterexample :
    let row : Row := [Cell.str "Number of old locks", Cell.none, Cell.none, Cell.num 3 "3",
      Cell.none, Cell.none, Cell.num 0 "0"]
    pyContains (rowText row) "old lock" = true ∧ extractVal row = some 3
      ∧ specNonBlankStatus row = true
      ∧ ((passBIssues Option.none "HDB" 9 row).filter fun i => i.check_type == "sm12")
        = [⟨"HDB", 9, "sm12", Severity.warning,
            "Old locks present (3) without explanation", ""⟩] := by
  decide

/-- A conditional singleton of another check type contributes nothing to
the sm12 filter. -/
lemma filter_ct_if (c : Bool) (sh : String) (ri : ℕ) (ct : String) (sev : Severity)
    (m cx : String) (h : (ct == "sm12") = false) :
    ((if c = true then [AuditIssue.mk sh ri ct sev m cx] else []).filter
      fun x => x.check_type == "sm12") = [] := by
  cases c <;> simp [List.filter_cons, h]

/-- Prop-condition variant of `filter_ct_if`. -/
lemma filter_ct_ifP (c : Prop) [Decidable c] (sh : String) (ri : ℕ) (ct : String)
    (sev : Severity) (m cx : String) (h : (ct == "sm12") = false) :
    ((if c then [AuditIssue.mk sh ri ct sev m cx] else []).filter
      fun x => x.check_type == "sm12") = [] := by
  split_ifs <;> simp [List.filter_cons, h]

/-- C7 amended: with "old lock" in the row text and a positive extracted
value, the old-lock warning is emitted exactly when `has_justification`
is false — i.e. when the status cell is Python-falsy or whitespace-only.
On string status cells this coincides with the claim (any non-blank text
suppresses, regardless of content or length); a status holding the number
0 is treated as blank and does not suppress. -/
theorem C7_old_lock_suppression (config : Option PyConfig) (sheetName : String)
    (rowIdx : ℕ) (row : Row) (v : ℚ)
    (hol : pyContains (rowText row) "old lock" = true)
    (hv : extractVal row = some v) (hpos : 0 < v) :
    (((passBIssues config sheetName rowIdx row).filter fun i => i.check_type == "sm12")
      = if (has_justification row).1 then []
        else [⟨sheetName, rowIdx, "sm12", Severity.warning,
            "Old locks present (" ++ toString (pyTrunc v) ++ ") without explanation", ""⟩])
    ∧ (∀ s, get_cell_value row 6 = Cell.str s →
        (has_justification row).1 = (pyStrip s != "")) := by
  constructor
  · obtain ⟨vc, he, hvv⟩ : ∃ vc, extract_numeric_value row = some vc ∧ vc.1 = v := by
      unfold extractVal at hv
      cases he : extract_numeric_value row with
      | none => rw [he] at hv; simp at hv
      | some vc => rw [he] at hv; exact ⟨vc, rfl, by simpa using hv⟩
    unfold passBIssues
    rw [he]
    simp only [hvv, hol, List.filter_append, Bool.true_or, decide_eq_true hpos, if_true,
      Bool.and_true]
    by_cases hj : (has_justification row).1 <;>
      simp [hj, filter_ct_if, filter_ct_ifP, List.filter_cons]
  · intro s hs
    unfold has_justification
    rw [hs]
    by_cases h0 : s = ""
    · subst h0
      simp [Cell.truthy, pyStrip_empty]
    · by_cases ht : pyStrip s = ""
      · simp [Cell.truthy, Cell.pyStr, h0, ht]
      · obtain ⟨h1, h2⟩ := pyStrip_ne_junk s ht
        simp [Cell.truthy, Cell.pyStr, h0, ht, h1, h2]

/-- C7 witness: a positive old-lock row with an empty status emits the
warning; the same row with a one-character status text suppresses it. -/
theorem C7_old_lock_suppression_witness :
    ((passBIssues Option.none "HDB" 9
        [Cell.str "Number of old locks", Cell.none, Cell.none, Cell.num 2 "2"]).filter
      fun i => i.check_type == "sm12")
      = [⟨"HDB", 9, "sm12", Severity.warning,
          "Old locks present (2) without explanation", ""⟩] :=
  ((C7_old_lock_suppression Option.none "HDB" 9
    [Cell.str "Number of old locks", Cell.none, Cell.none, Cell.num 2 "2"] 2
    (by decide) (by decide) (by norm_num)).1).trans (by decide)

/-!  C5. -/

/-- `firstPat` returns `some k` exactly for the first matching table
entry. -/
lemma firstPat_eq_some_iff (t : String) :
    ∀ (ps : List (String × List (List String))) (k : String),
      firstPat ps t = some k ↔
        ∃ i, i < ps.length ∧ (ps.getD i ("", [])).1 = k
          ∧ patSearch (ps.getD i ("", [])).2 t = true
          ∧ ∀ j, j < i → patSearch (ps.getD j ("", [])).2 t = false
  | [], k => by simp [firstPat]
  | (k0, p0) :: rest, k => by
    by_cases h : patSearch p0 t = true
    · simp only [firstPat, if_pos h]
      constructor
      · intro he
        refine ⟨0, by simp, ?_, by simpa using h, by omega⟩
        simpa using he
      · rintro ⟨i, hi, hk, hp, hall⟩
        cases i with
        | zero => simp only [List.getD_cons_zero] at hk; simp [hk]
        | succ n =>
          have := hall 0 (Nat.succ_pos n)
          simp only [List.getD_cons_zero] at this
          exact absurd h (by simp [this])
    · simp only [firstPat, if_neg h]
      rw [firstPat_eq_some_iff t rest k]
      constructor
      · rintro ⟨i, hi, hk, hp, hall⟩
        refine ⟨i + 1, by simpa using Nat.succ_lt_succ hi, by simpa using hk,
          by simpa using hp, ?_⟩
        intro j hj
        cases j with
        | zero =>
          simp only [List.getD_cons_zero]
          simpa using h
        | succ m =>
          simp only [List.getD_cons_succ]
          exact hall m (Nat.lt_of_succ_lt_succ hj)
      · rintro ⟨i, hi, hk, hp, hall⟩
        cases i with
        | zero =>
          simp only [List.getD_cons_zero] at hp
          exact absurd hp h
        | succ n =>
          refine ⟨n, by simpa using Nat.lt_of_succ_lt_succ hi, by simpa using hk,
            by simpa using hp, ?_⟩
          intro j hj
          have := hall (j + 1) (Nat.succ_lt_succ hj)
          simpa using this

/-- `firstPat` returns `none` exactly when no table entry matches. -/
lemma firstPat_eq_none_iff (t : String) :
    ∀ ps : List (String × List (List String)),
      firstPat ps t = Option.none ↔ ∀ p ∈ ps, patSearch p.2 t = false
  | [] => by simp [firstPat]
  | (k0, p0) :: rest => by
    by_cases h : patSearch p0 t = true
    · simp [firstPat, h]
    · simp only [firstPat, if_neg h, firstPat_eq_none_iff t rest]
      constructor
      · intro hall p hp
        rcases List.mem_cons.mp hp with h0 | h0
        · subst h0; simpa using h
        · exact hall p h0
      · intro hall p hp
        exact hall p (List.mem_cons_of_mem _ hp)

/-- C5: row classification returns the first category of the fixed table
whose pattern matches the concatenated lowercased row text, or none; on
non-empty rows a match updates the sticky current category and a
non-match keeps it.  In particular the two unlabelled rows following an
"SM37 failed job header" row both stay attributed to the job monitor
category `sm37`. -/
theorem C5_sticky_classification :
    (∀ (row : Row) (k : String), identify_check_type row = some k ↔
      ∃ i, i < checkPatterns.length ∧ (checkPatterns.getD i ("", [])).1 = k
        ∧ patSearch (checkPatterns.getD i ("", [])).2 (rowText row) = true
        ∧ ∀ j, j < i → patSearch (checkPatterns.getD j ("", [])).2 (rowText row) = false)
    ∧ (∀ row : Row, identify_check_type row = Option.none ↔
        ∀ p ∈ checkPatterns, patSearch p.2 (rowText row) = false)
    ∧ (∀ (config : Option PyConfig) (sheetName : String) (cur : Option String)
        (rowIdx : ℕ) (row : Row), row.any Cell.truthy = true →
        identify_check_type row = Option.none →
        (auditRowStep config sheetName cur rowIdx row).1 = cur)
    ∧ (∀ (config : Option PyConfig) (sheetName : String) (cur : Option String)
        (rowIdx : ℕ) (row : Row) (k : String), row.any Cell.truthy = true →
        identify_check_type row = some k →
        (auditRowStep config sheetName cur rowIdx row).1 = some k)
    ∧ ((auditRowStep Option.none "HDB" Option.none 6
          [Cell.str "SM37 failed job header"]).1 = some "sm37"
        ∧ (auditRowStep Option.none "HDB" (some "sm37") 7
            [Cell.str "value a", Cell.num 1 "1"]).1 = some "sm37"
        ∧ (auditRowStep Option.none "HDB" (some "sm37") 8
            [Cell.str "another data cell"]).1 = some "sm37") := by
  refine ⟨fun row k => firstPat_eq_some_iff (rowText row) checkPatterns k,
    fun row => firstPat_eq_none_iff (rowText row) checkPatterns, ?_, ?_, ?_⟩
  · intro config sheetName cur rowIdx row hany hid
    simp [auditRowStep, hany, hid]
  · intro config sheetName cur rowIdx row k hany hid
    simp [auditRowStep, hany, hid]
  · exact ⟨by decide, by decide, by decide⟩

/-- C5 witness: applying the sticky rule at the concrete unlabelled row. -/
theorem C5_sticky_classification_witness :
    (auditRowStep Option.none "HDB" (some "sm37") 7
      [Cell.str "value a", Cell.num 1 "1"]).1 = some "sm37" :=
  C5_sticky_classification.2.2.1 Option.none "HDB" (some "sm37") 7
    [Cell.str "value a", Cell.num 1 "1"] (by decide) (by decide)

/-!  C6. -/

/-- C6: numeric extraction scans columns 3, 4, 5 in that order and
returns the first cell reading that parses as a number (a string is
normalised by turning commas into dots and removing spaces before the
parse); a parse failure on one column is non-fatal, the next column is
tried; when no column parses, nothing is extracted and pass B emits no
finding for the row.  The concrete conjuncts show the comma/space
normalisation parsing and a non-fatal failure. -/
theorem C6_numeric_extraction :
    (∀ (row : Row) (v : ℚ) (c : ℕ), extract_numeric_value row = some (v, c) ↔
      c ∈ ([3, 4, 5] : List ℕ) ∧ cellNum? (get_cell_value row c) = some v
        ∧ ∀ j ∈ ([3, 4, 5] : List ℕ), j < c → cellNum? (get_cell_value row j) = Option.none)
    ∧ (∀ row : Row, extract_numeric_value row = Option.none ↔
        ∀ j ∈ ([3, 4, 5] : List ℕ), cellNum? (get_cell_value row j) = Option.none)
    ∧ (∀ (config : Option PyConfig) (sheetName : String) (rowIdx : ℕ) (row : Row),
        extract_numeric_value row = Option.none →
        passBIssues config sheetName rowIdx row = [])
    ∧ cellNum? (Cell.str "1 234,5") = some (mkRat 2469 2)
    ∧ cellNum? (Cell.str "n/a") = Option.none
    ∧ extract_numeric_value
        [Cell.str "dumps", Cell.none, Cell.none, Cell.str "n/a", Cell.str "7"] = some (7, 4) := by
  refine ⟨?_, ?_, ?_, by decide, by decide, by decide⟩
  · intro row v c
    cases h3 : cellNum? (get_cell_value row 3) with
    | some w =>
      simp only [extract_numeric_value, h3]
      constructor
      · rintro he
        injection he with he
        injection he with hv hc
        subst hv; subst hc
        refine ⟨by simp, h3, ?_⟩
        intro j hj hlt
        simp at hj
        omega
      · rintro ⟨hc, hval, hall⟩
        simp only [List.mem_cons] at hc
        rcases hc with rfl | rfl | rfl | hfalse
        · rw [h3] at hval; injection hval with hval; subst hval; rfl
        · exact absurd h3 (by simp [hall 3 (by simp) (by omega)])
        · exact absurd h3 (by simp [hall 3 (by simp) (by omega)])
        · simp at hfalse
    | none =>
      cases h4 : cellNum? (get_cell_value row 4) with
      | some w =>
        simp only [extract_numeric_value, h3, h4]
        constructor
        · rintro he
          injection he with he
          injection he with hv hc
          subst hv; subst hc
          refine ⟨by simp, h4, ?_⟩
          intro j hj hlt
          simp at hj
          rcases hj with rfl | rfl | rfl
          · exact h3
          · omega
          · omega
        · rintro ⟨hc, hval, hall⟩
          simp only [List.mem_cons] at hc
          rcases hc with rfl | rfl | rfl | hfalse
          · rw [h3] at hval; simp at hval
          · rw [h4] at hval; injection hval with hval; subst hval; rfl
          · exact absurd h4 (by simp [hall 4 (by simp) (by omega)])
          · simp at hfalse
      | none =>
        cases h5 : cellNum? (get_cell_value row 5) with
        | some w =>
          simp only [extract_numeric_value, h3, h4, h5]
          constructor
          · rintro he
            injection he with he
            injection he with hv hc
            subst hv; subst hc
            refine ⟨by simp, h5, ?_⟩
            intro j hj hlt
            simp at hj
            rcases hj with rfl | rfl | rfl
            · exact h3
            · exact h4
            · omega
          · rintro ⟨hc, hval, hall⟩
            simp only [List.mem_cons] at hc
            rcases hc with rfl | rfl | rfl | hfalse
            · rw [h3] at hval; simp at hval
            · rw [h4] at hval; simp at hval
            · rw [h5] at hval; injection hval with hval; subst hval; rfl
            · simp at hfalse
        | none =>
          simp only [extract_numeric_value, h3, h4, h5]
          constructor
          · intro he; exact absurd he (by simp)
          · rintro ⟨hc, hval, hall⟩
            simp only [List.mem_cons] at hc
            rcases hc with rfl | rfl | rfl | hfalse
            · rw [h3] at hval; simp at hval
            · rw [h4] at hval; simp at hval
            · rw [h5] at hval; simp at hval
            · simp at hfalse
  · intro row
    cases h3 : cellNum? (get_cell_value row 3) with
    | some w =>
      simp only [extract_numeric_value, h3]
      constructor
      · intro he; simp at he
      · intro hall
        exact absurd h3 (by simp [hall 3 (by simp)])
    | none =>
      cases h4 : cellNum? (get_cell_value row 4) with
      | some w =>
        simp only [extract_numeric_value, h3, h4]
        constructor
        · intro he; simp at he
        · intro hall
          exact absurd h4 (by simp [hall 4 (by simp)])
      | none =>
        cases h5 : cellNum? (get_cell_value row 5) with
        | some w =>
          simp only [extract_numeric_value, h3, h4, h5]
          constructor
          · intro he; simp at he
          · intro hall
            exact absurd h5 (by simp [hall 5 (by simp)])
        | none =>
          simp only [extract_numeric_value, h3, h4, h5]
          constructor
          · intro _ j hj
            simp at hj
            rcases hj with rfl | rfl | rfl
            · exact h3
            · exact h4
            · exact h5
          · intro _; trivial
  · intro config sheetName rowIdx row h
    unfold passBIssues
    rw [h]

/-- C6 witness: the first-success characterisation applied at a concrete
row whose column 3 fails to parse and whose column 4 parses. -/
theorem C6_numeric_extraction_witness :
    (4 : ℕ) ∈ ([3, 4, 5] : List ℕ)
      ∧ cellNum? (get_cell_value
          [Cell.str "dumps", Cell.none, Cell.none, Cell.str "n/a", Cell.str "7"] 4) = some 7
      ∧ ∀ j ∈ ([3, 4, 5] : List ℕ), j < 4 → cellNum? (get_cell_value
          [Cell.str "dumps", Cell.none, Cell.none, Cell.str "n/a", Cell.str "7"] j)
            = Option.none :=
  (C6_numeric_extraction.1
    [Cell.str "dumps", Cell.none, Cell.none, Cell.str "n/a", Cell.str "7"] 7 4).mp (by decide)

/-!  C3. -/

/-- C3: for every non-"unknown" analysis, the reconciliation output is
exactly one critical issue per count whose extracted and reported values
are both present and unequal, carrying both values; an absent extraction
field is never compared (and neither is an absent reported value).  The
concrete conjunct checks extraction failed-data-backup 2 against a sheet
reporting 0: exactly one critical issue, screenshot value 2, reported
value 0. -/
theorem C3_screenshot_discrepancies :
    (∀ (a : Analysis) (rep : Reported), a.analysis_type ≠ "unknown" →
      validateOne a rep =
        (match a.extracted_data.failed_data_backup, rep.failed_data_backup with
         | some sv, some rv =>
           if sv = rv then []
           else [⟨a.sheet_name, a.image_name, Severity.critical,
             "Screenshot shows " ++ toString sv ++ " failed data backups but cell reports "
               ++ toString rv, PyVal.vint sv, PyVal.vint rv⟩]
         | _, _ => [])
        ++ (match a.extracted_data.failed_log_backup, rep.failed_log_backup with
         | some sv, some rv =>
           if sv = rv then []
           else [⟨a.sheet_name, a.image_name, Severity.critical,
             "Screenshot shows " ++ toString sv ++ " failed log backups but cell reports "
               ++ toString rv, PyVal.vint sv, PyVal.vint rv⟩]
         | _, _ => [])
        ++ (match a.extracted_data.failed_jobs, rep.failed_jobs with
         | some sv, some rv =>
           if sv = rv then []
           else [⟨a.sheet_name, a.image_name, Severity.critical,
             "Screenshot shows " ++ toString sv ++ " failed jobs but cell reports "
               ++ toString rv, PyVal.vint sv, PyVal.vint rv⟩]
         | _, _ => [])
        ++ errBlock a rep)
    ∧ (∀ (a : Analysis) (rep : Reported),
        (a.extracted_data.failed_data_backup = Option.none → fdbBlock a rep = [])
        ∧ (a.extracted_data.failed_log_backup = Option.none → flbBlock a rep = [])
        ∧ (a.extracted_data.failed_jobs = Option.none → fjBlock a rep = []))
    ∧ (validateOne
        ⟨"img0", "HDB", "backup",
          ⟨some 2, Option.none, Option.none, Option.none, Option.none, false, []⟩, "s"⟩
        (extract_reported_values [[Cell.str "Failed data backup", Cell.num 0 "0"]])
      = [⟨"HDB", "img0", Severity.critical,
          "Screenshot shows 2 failed data backups but cell reports 0",
          PyVal.vint 2, PyVal.vint 0⟩]) := by
  refine ⟨?_, ?_, by decide⟩
  · intro a rep htype
    have ht : (a.analysis_type == "unknown") = false := by
      simp [htype]
    unfold validateOne fdbBlock flbBlock fjBlock
    rw [ht]
    simp only [Bool.false_eq_true, if_false]
    congr 1
    rotate_left
    congr 1
    rotate_left
    congr 1
    all_goals
      rcases a.extracted_data.failed_data_backup with _ | sv <;>
        rcases a.extracted_data.failed_log_backup with _ | sv2 <;>
        rcases a.extracted_data.failed_jobs with _ | sv3 <;>
        rcases rep.failed_data_backup with _ | rv <;>
        rcases rep.failed_log_backup with _ | rv2 <;>
        rcases rep.failed_jobs with _ | rv3 <;>
        simp <;> split_ifs <;> simp_all
  · intro a rep
    refine ⟨?_, ?_, ?_⟩ <;> intro h
    · unfold fdbBlock; rw [h]
    · unfold flbBlock; rw [h]
    · unfold fjBlock; rw [h]

/-- C3 witness: the general characterisation applied to the concrete
analysis and reported values of the concrete conjunct. -/
theorem C3_screenshot_discrepancies_witness :
    validateOne
        ⟨"img0", "HDB", "backup",
          ⟨some 2, Option.none, Option.none, Option.none, Option.none, false, []⟩, "s"⟩
        ⟨some 0, Option.none, Option.none⟩
      = [⟨"HDB", "img0", Severity.critical,
          "Screenshot shows 2 failed data backups but cell reports 0",
          PyVal.vint 2, PyVal.vint 0⟩] :=
  (C3_screenshot_discrepancies.1
    ⟨"img0", "HDB", "backup",
      ⟨some 2, Option.none, Option.none, Option.none, Option.none, false, []⟩, "s"⟩
    ⟨some 0, Option.none, Option.none⟩ (by decide)).trans (by decide)

/-!  C4.  The claim quantifies over every analysis with error indicators,
but the reconciliation loop skips analyses classified "unknown" before
any check runs: such an analysis produces no warning even when all
reported failure metrics are zero. -/

/-- C4 counterexample: an "unknown"-classified analysis whose extraction
has `has_errors` true, against reported failure metrics summing to zero,
yields no warning at all. -/
theorem C4_counterexample :
    let a : Analysis := ⟨"imgU", "SheetU", "unknown",
      ⟨Option.none, Option.none, Option.none, Option.none, Option.none, true,
        ["red status"]⟩, "s"⟩
    let rep : Reported := ⟨some 0, some 0, Option.none⟩
    a.extracted_data.has_errors = true
      ∧ rep.failed_data_backup.getD 0 + rep.failed_log_backup.getD 0
          + rep.failed_jobs.getD 0 = 0
      ∧ ((validateOne a rep).filter fun i => i.severity == Severity.warning) = [] := by
  decide

/-- C4 amended: for every analysis of non-"unknown" classified type whose
extraction has `has_errors` true, exactly one warning issue is emitted
when the three reported failure metrics (absent entries reading as 0) sum
to zero, and none when the sum is nonzero (for the nonnegative counts of
real sheets this coincides with "any metric nonzero"). -/
theorem C4_error_indicator_warning (a : Analysis) (rep : Reported)
    (htype : a.analysis_type ≠ "unknown")
    (herr : a.extracted_data.has_errors = true) :
    ((validateOne a rep).filter fun i => i.severity == Severity.warning)
      = if rep.failed_data_backup.getD 0 + rep.failed_log_backup.getD 0
            + rep.failed_jobs.getD 0 = 0 then
          [⟨a.sheet_name, a.image_name, Severity.warning,
            "Screenshot shows error indicators but no failures reported: "
              ++ pyStrListRepr a.extracted_data.error_indicators,
            PyVal.vstrs a.extracted_data.error_indicators, PyVal.vint 0⟩]
        else [] := by
  have ht : (a.analysis_type == "unknown") = false := by
    simp [htype]
  have hfdb : (fdbBlock a rep).filter (fun i => i.severity == Severity.warning) = [] := by
    unfold fdbBlock
    rcases a.extracted_data.failed_data_backup with _ | sv
    · rfl
    · rcases rep.failed_data_backup with _ | rv
      · rfl
      · simp [apply_ite (List.filter fun i : ValidationIssue => i.severity == Severity.warning),
          List.filter_cons]
  have hflb : (flbBlock a rep).filter (fun i => i.severity == Severity.warning) = [] := by
    unfold flbBlock
    rcases a.extracted_data.failed_log_backup with _ | sv
    · rfl
    · rcases rep.failed_log_backup with _ | rv
      · rfl
      · simp [apply_ite (List.filter fun i : ValidationIssue => i.severity == Severity.warning),
          List.filter_cons]
  have hfj : (fjBlock a rep).filter (fun i => i.severity == Severity.warning) = [] := by
    unfold fjBlock
    rcases a.extracted_data.failed_jobs with _ | sv
    · rfl
    · rcases rep.failed_jobs with _ | rv
      · rfl
      · simp [apply_ite (List.filter fun i : ValidationIssue => i.severity == Severity.warning),
          List.filter_cons]
  unfold validateOne
  rw [ht]
  simp only [Bool.false_eq_true, if_false, List.filter_append, hfdb, hflb, hfj,
    List.nil_append]
  unfold errBlock
  rw [herr]
  by_cases hz : rep.failed_data_backup.getD 0 + rep.failed_log_backup.getD 0
      + rep.failed_jobs.getD 0 = 0 <;>
    simp [hz, List.filter_cons]

/-- C4 witness: a non-"unknown" analysis with error indicators against an
all-zero report yields exactly the one warning. -/
theorem C4_error_indicator_warning_witness :
    ((validateOne
        ⟨"img1", "HDB", "jobs",
          ⟨Option.none, Option.none, Option.none, Option.none, Option.none, true,
            ["3 red entries"]⟩, "s"⟩
        ⟨some 0, Option.none, Option.none⟩).filter
      fun i => i.severity == Severity.warning)
      = [⟨"HDB", "img1", Severity.warning,
          "Screenshot shows error indicators but no failures reported: [\x273 red entries\x27]",
          PyVal.vstrs ["3 red entries"], PyVal.vint 0⟩] :=
  (C4_error_indicator_warning
    ⟨"img1", "HDB", "jobs",
      ⟨Option.none, Option.none, Option.none, Option.none, Option.none, true,
        ["3 red entries"]⟩, "s"⟩
    ⟨some 0, Option.none, Option.none⟩ (by decide) (by decide)).trans (by decide)

/-!  C9. -/

/-- The contribution of one row to the failed-jobs total: the truncated
first numeric cell of a row whose text triggers the job-failure phrasing,
0 otherwise. -/
def jobsContrib (row : Row) : ℤ :=
  if jobsRowHit row then ((firstNumCell row).map pyTrunc).getD 0 else 0

/-- The failed-jobs total summed over all rows of a sheet. -/
def jobsSum (rows : List Row) : ℤ := (rows.map jobsContrib).sum

/-- The third accumulator component of one report-extraction step. -/
lemma repStep_third (acc : Option ℤ × Option ℤ × ℤ) (row : Row) :
    (repStep acc row).2.2 = acc.2.2 + jobsContrib row := by
  unfold repStep jobsContrib
  by_cases h : jobsRowHit row = true <;>
    cases hn : firstNumCell row <;>
    simp [h, hn]

/-- The jobs accumulator of the report-extraction fold is the row sum. -/
lemma foldl_repStep_third :
    ∀ (rows : List Row) (acc : Option ℤ × Option ℤ × ℤ),
      (rows.foldl repStep acc).2.2 = acc.2.2 + jobsSum rows
  | [], acc => by simp [jobsSum]
  | r :: rows, acc => by
    rw [List.foldl_cons, foldl_repStep_third rows (repStep acc r), repStep_third]
    simp [jobsSum]
    ring

/-- C9: the reported values record a failed-jobs entry only when the
summed job-failure count over the sheet rows is strictly positive (and
then the entry is that sum); for a sheet whose summed count is zero — in
particular one explicitly reporting 0 failed jobs — the entry is absent,
so the failed-jobs comparison block emits nothing whatever the screenshot
extraction says. -/
theorem C9_failed_jobs_absent_vs_zero :
    (∀ (rows : List Row) (t : ℤ),
      (extract_reported_values rows).failed_jobs = some t → 0 < t ∧ t = jobsSum rows)
    ∧ (∀ rows : List Row, jobsSum rows = 0 →
        (extract_reported_values rows).failed_jobs = Option.none)
    ∧ (∀ (rows : List Row) (a : Analysis), jobsSum rows = 0 →
        fjBlock a (extract_reported_values rows) = []) := by
  have hval : ∀ rows : List Row,
      (extract_reported_values rows).failed_jobs
        = if 0 < jobsSum rows then some (jobsSum rows) else Option.none := by
    intro rows
    unfold extract_reported_values
    simp only [foldl_repStep_third rows (Option.none, Option.none, 0)]
    norm_num
  refine ⟨?_, ?_, ?_⟩
  · intro rows t h
    rw [hval rows] at h
    by_cases hp : 0 < jobsSum rows
    · rw [if_pos hp] at h
      injection h with h
      exact ⟨h ▸ hp, h.symm⟩
    · rw [if_neg hp] at h
      simp at h
  · intro rows hz
    rw [hval rows, hz]
    simp
  · intro rows a hz
    have : (extract_reported_values rows).failed_jobs = Option.none := by
      rw [hval rows, hz]; simp
    unfold fjBlock
    rw [this]
    rcases a.extracted_data.failed_jobs with _ | sv <;> rfl

/-- C9 witness: a sheet explicitly reporting 0 failed jobs, against a
screenshot extraction showing 5 failed jobs, yields no failed-jobs
discrepancy issue. -/
theorem C9_failed_jobs_absent_vs_zero_witness :
    fjBlock
        ⟨"img2", "HDB", "jobs",
          ⟨Option.none, Option.none, some 5, Option.none, Option.none, false, []⟩, "s"⟩
        (extract_reported_values [[Cell.str "Number of failed jobs today", Cell.num 0 "0"]])
      = [] :=
  C9_failed_jobs_absent_vs_zero.2.2
    [[Cell.str "Number of failed jobs today", Cell.num 0 "0"]]
    ⟨"img2", "HDB", "jobs",
      ⟨Option.none, Option.none, some 5, Option.none, Option.none, false, []⟩, "s"⟩
    (by decide)

/-!  C8. -/

/-- The main bullet lines survive as an ordered sublist of the critical
section, which interleaves context lines under each bullet. -/
lemma map_sublist_flatMap_cons (f : AuditIssue → String) (g : AuditIssue → List String) :
    ∀ l : List AuditIssue, (l.map f).Sublist (l.flatMap fun i => f i :: g i)
  | [] => by simp
  | x :: l => by
    simp only [List.map_cons, List.flatMap_cons]
    refine List.Sublist.cons₂ _ ?_
    exact (map_sublist_flatMap_cons f g l).trans (List.sublist_append_right _ _)

/-- `isEmpty` is false on a list known nonempty. -/
lemma isEmpty_false_of_ne_nil {A : Type} (l : List A) (h : l ≠ []) : l.isEmpty = false := by
  cases l with
  | nil => exact absurd rfl h
  | cons x t => rfl

/-- `isEmpty` is true on a list known empty. -/
lemma isEmpty_true_of_eq_nil {A : Type} (l : List A) (h : l = []) : l.isEmpty = true := by
  rw [h]; rfl

/-- Every issue is critical or warning, so a sheet with issues has one of
the two nonempty. -/
lemma severity_split (l : List AuditIssue)
    (hc : l.filter (fun i => i.severity == Severity.critical) = [])
    (hw : l.filter (fun i => i.severity == Severity.warning) = []) : l = [] := by
  cases l with
  | nil => rfl
  | cons x l =>
    exfalso
    cases hs : x.severity with
    | critical =>
      have : x ∈ List.filter (fun i => i.severity == Severity.critical) (x :: l) := by
        simp [List.mem_filter, hs]
      rw [hc] at this
      simp at this
    | warning =>
      have : x ∈ List.filter (fun i => i.severity == Severity.warning) (x :: l) := by
        simp [List.mem_filter, hs]
      rw [hw] at this
      simp at this

/-- C8: the per-sheet report section marks the sheet `[CRITICAL]` when it
has a critical finding, else `[WARNING]` when it has a warning finding,
else lists it with the explicit `[OK]` passed marker (a sheet is never
omitted and never has an empty section); within a sheet all critical
finding lines precede all warning finding lines, each group keeping the
accumulation order of the finding list. -/
theorem C8_report_grouping (issues : List AuditIssue) (sheetName : String) :
    ((issues.filter fun i => i.sheet == sheetName).filter
        (fun i => i.severity == Severity.critical) ≠ [] →
      (sheetSection issues sheetName).head?
        = some ("### [CRITICAL] " ++ sheetName ++ "\n"))
    ∧ ((issues.filter fun i => i.sheet == sheetName).filter
          (fun i => i.severity == Severity.critical) = [] →
        (issues.filter fun i => i.sheet == sheetName).filter
          (fun i => i.severity == Severity.warning) ≠ [] →
        (sheetSection issues sheetName).head?
          = some ("### [WARNING] " ++ sheetName ++ "\n"))
    ∧ ((issues.filter fun i => i.sheet == sheetName).filter
          (fun i => i.severity == Severity.critical) = [] →
        (issues.filter fun i => i.sheet == sheetName).filter
          (fun i => i.severity == Severity.warning) = [] →
        sheetSection issues sheetName
          = ["### [OK] " ++ sheetName ++ "\n", "All checks passed validation.\n"])
    ∧ sheetSection issues sheetName ≠ []
    ∧ ((((issues.filter fun i => i.sheet == sheetName).filter
            (fun i => i.severity == Severity.critical))
          ++ ((issues.filter fun i => i.sheet == sheetName).filter
            (fun i => i.severity == Severity.warning))).map renderIssueLine).Sublist
        (sheetSection issues sheetName)
    ∧ (∀ sheetNames : List String, sheetName ∈ sheetNames →
        ∃ pre post, perSystemFindings sheetNames issues
          = pre ++ sheetSection issues sheetName ++ post) := by
  have hsplitmem : ∀ sheetNames : List String, sheetName ∈ sheetNames →
      ∃ pre post, perSystemFindings sheetNames issues
        = pre ++ sheetSection issues sheetName ++ post := by
    intro sheetNames hmem
    obtain ⟨pre, post, hsplit⟩ := List.append_of_mem hmem
    refine ⟨pre.flatMap (sheetSection issues), post.flatMap (sheetSection issues), ?_⟩
    rw [hsplit]
    simp [perSystemFindings, List.flatMap_append, List.flatMap_cons, List.append_assoc]
  by_cases hempty : (issues.filter fun i => i.sheet == sheetName).isEmpty = true
  · have hnil : issues.filter (fun i => i.sheet == sheetName) = [] :=
      List.isEmpty_iff.mp hempty
    refine ⟨?_, ?_, ?_, ?_, ?_, hsplitmem⟩
    · intro hc; exact absurd (by rw [hnil]; rfl) hc
    · intro _ hw; exact absurd (by rw [hnil]; rfl) hw
    · intro _ _; simp [sheetSection, hempty]
    · simp [sheetSection, hempty]
    · rw [hnil]; simp
  · refine ⟨?_, ?_, ?_, ?_, ?_, hsplitmem⟩
    · intro hc
      have h1 : ((issues.filter fun i => i.sheet == sheetName).filter
          fun i => i.severity == Severity.critical).isEmpty = false :=
        isEmpty_false_of_ne_nil _ hc
      simp only [sheetSection, if_neg hempty, List.cons_append, List.head?_cons,
        Option.some.injEq]
      rw [if_pos (by rw [h1]; rfl)]
      simp
    · intro hc hw
      have h1 : ((issues.filter fun i => i.sheet == sheetName).filter
          fun i => i.severity == Severity.critical).isEmpty = true :=
        isEmpty_true_of_eq_nil _ hc
      simp only [sheetSection, if_neg hempty, List.cons_append, List.head?_cons,
        Option.some.injEq]
      rw [if_neg (by rw [h1]; exact Bool.false_ne_true)]
      simp
    · intro hc hw
      exact absurd (severity_split _ hc hw)
        (fun h => hempty (isEmpty_true_of_eq_nil _ h))
    · simp only [sheetSection, if_neg hempty, List.cons_append]
      simp
    · by_cases hc : (issues.filter fun i => i.sheet == sheetName).filter
          (fun i => i.severity == Severity.critical) = []
      · by_cases hw : (issues.filter fun i => i.sheet == sheetName).filter
            (fun i => i.severity == Severity.warning) = []
        · rw [hc, hw]; simp
        · have h1 : ((issues.filter fun i => i.sheet == sheetName).filter
              fun i => i.severity == Severity.critical).isEmpty = true :=
            isEmpty_true_of_eq_nil _ hc
          have h2 : ((issues.filter fun i => i.sheet == sheetName).filter
              fun i => i.severity == Severity.warning).isEmpty = false :=
            isEmpty_false_of_ne_nil _ hw
          rw [hc]
          simp only [sheetSection, hempty, h1, h2, List.nil_append, Bool.false_eq_true,
            if_false, Bool.not_false, Bool.not_true, if_true, List.map_append,
            List.append_assoc, List.cons_append, List.singleton_append, List.map_nil, List.nil_append]
          refine List.Sublist.cons _ (List.Sublist.cons _ (List.Sublist.cons _ ?_))
          exact List.sublist_append_left _ _
      · have h1 : ((issues.filter fun i => i.sheet == sheetName).filter
            fun i => i.severity == Severity.critical).isEmpty = false :=
          isEmpty_false_of_ne_nil _ hc
        by_cases hw : (issues.filter fun i => i.sheet == sheetName).filter
            (fun i => i.severity == Severity.warning) = []
        · have h2 : ((issues.filter fun i => i.sheet == sheetName).filter
              fun i => i.severity == Severity.warning).isEmpty = true :=
            isEmpty_true_of_eq_nil _ hw
          rw [hw]
          simp only [sheetSection, hempty, h1, h2, List.append_nil, Bool.false_eq_true,
            if_false, Bool.not_false, Bool.not_true, if_true, List.map_append,
            List.append_assoc, List.cons_append, List.singleton_append, List.map_nil, List.nil_append]
          refine List.Sublist.cons _ (List.Sublist.cons _ (List.Sublist.cons _ ?_))
          exact (map_sublist_flatMap_cons _ _ _).trans (List.sublist_append_left _ _)
        · have h2 : ((issues.filter fun i => i.sheet == sheetName).filter
              fun i => i.severity == Severity.warning).isEmpty = false :=
            isEmpty_false_of_ne_nil _ hw
          simp only [sheetSection, hempty, h1, h2, Bool.false_eq_true, if_false,
            Bool.not_false, Bool.not_true, if_true, List.map_append, List.append_assoc,
            List.cons_append, List.singleton_append, List.nil_append]
          refine List.Sublist.cons _ (List.Sublist.cons _ (List.Sublist.cons _ ?_))
          refine List.Sublist.append (map_sublist_flatMap_cons _ _ _) ?_
          refine List.Sublist.cons _ (List.Sublist.cons _ ?_)
          exact List.sublist_append_left _ _

/-- C8 witness: a sheet with one warning and one critical finding is
marked `[CRITICAL]`, and an absent sheet gets the `[OK]` passed lines. -/
theorem C8_report_grouping_witness :
    (sheetSection
        [⟨"HDB", 7, "smlg", Severity.warning, "w", ""⟩,
         ⟨"HDB", 9, "sm13", Severity.critical, "c", ""⟩] "HDB").head?
      = some "### [CRITICAL] HDB\n" :=
  (C8_report_grouping
    [⟨"HDB", 7, "smlg", Severity.warning, "w", ""⟩,
     ⟨"HDB", 9, "sm13", Severity.critical, "c", ""⟩] "HDB").1 (by decide)

end DailyChecks
